import Mathlib

/-!
Shallow embedding of the block-model renderer in
`overviewer_core/textures.py` (class `Textures`), covering the model
loader (`load_model`, `normalize_model`, `find_texture_from_model`),
the orientation mapper (`numvalue_orientation`,
`orientation_from_numvalue`, `map_facing_to_real`, `map_axis_to_real`),
the per-face shading (`adjust_lighting`), the seam patch at the end of
`build_block_from_model`, and the element/face assembly control flow of
`build_block_from_model` / `draw_blockface` / `build_texture`.

Python dictionaries keyed by strings or face names are embedded as
association lists with Python `dict` semantics (`dict_lookup`,
`dict_set`, `dict_update`); a failed mandatory lookup (Python
`KeyError`) is an explicit `PyErr.keyError`.  Recursion that Python
bounds only by the interpreter stack is fuel-indexed: an outer `none`
means the recursion exceeded the given depth.  PIL images are embedded
as total pixel functions; `ImageEnhance.Brightness(t).enhance(f)` is
embedded as channel-wise scaling by the rational factor (see
`brightness_enhance`).
-/

/-- The six face names used by the model JSON and the renderer. -/
inductive Face where
  | north | south | east | west | up | down
deriving DecidableEq, Repr

/-- `Textures.numvalue_orientation`: the dict
`{'south': 0, 'west': 1, 'north': 2, 'east': 3, 'up': 4, 'down': 6}`
(total on the six face names). -/
def numvalue_orientation : Face → Nat
  | .south => 0
  | .west => 1
  | .north => 2
  | .east => 3
  | .up => 4
  | .down => 6

/-- `Textures.orientation_from_numvalue`: the dict
`{0:'south', 1:'west', 2:'north', 3:'east', 4:'up', 6:'down'}`; any
other key raises `KeyError`, embedded as `none`. -/
def orientation_from_numvalue : Nat → Option Face
  | 0 => some .south
  | 1 => some .west
  | 2 => some .north
  | 3 => some .east
  | 4 => some .up
  | 6 => some .down
  | _ => none

/-- `Textures.map_facing_to_real(blockfacing, targetblockface)`.
`rotation` is the instance attribute `self.rotation` (the session's
north-direction setting).  The list index `[0, 3, 2, 1][...]` and the
dict lookup inside `orientation_from_numvalue` are the two fallible
operations, embedded through `Option`. -/
def map_facing_to_real (rotation : Nat) (blockfacing targetblockface : Face) :
    Option Face :=
  if blockfacing = Face.up then
    some (if targetblockface = Face.up then Face.north
          else if targetblockface = Face.north then Face.west
          else if targetblockface = Face.west then Face.down
          else blockfacing)
  else if blockfacing = Face.down then
    some (if targetblockface = Face.west then Face.down
          else if targetblockface = Face.north then Face.west
          else if targetblockface = Face.up then Face.south
          else blockfacing)
  else if targetblockface = Face.up then some Face.up
  else if targetblockface = Face.down then some Face.down
  else
    match [0, 3, 2, 1].get? (numvalue_orientation blockfacing) with
    | none => none
    | some off =>
        orientation_from_numvalue
          ((numvalue_orientation targetblockface + off + 1 + rotation +
            rotation % 2 * 2) % 4)

/-- `Textures.map_axis_to_real(axis, textureface)`: a per-axis
permutation table with `'y'` falling into the catch-all branch. -/
def map_axis_to_real (axis : String) (textureface : Face) : Face :=
  if axis = "x" then
    match textureface with
    | .up => .north
    | .north => .down
    | .down => .south
    | .south => .up
    | .east => .east
    | .west => .west
  else if axis = "z" then
    match textureface with
    | .up => .west
    | .west => .down
    | .down => .east
    | .east => .up
    | .north => .north
    | .south => .south
  else textureface

/-- A face is one of the four horizontal directions. -/
def horizontal (f : Face) : Bool :=
  match f with
  | .south | .west | .north | .east => true
  | .up | .down => false

/-- Modelled from the spec (claim C1's formula): the ring index of a
horizontal face under the fixed ordering south=0, west=1, north=2,
east=3.  Spec-side definition, to be compared with the source's
`numvalue_orientation`. -/
def spec_ring_index : Face → Nat
  | .south => 0
  | .west => 1
  | .north => 2
  | .east => 3
  | .up => 0
  | .down => 0

/-- Modelled from the spec (claim C1's formula): convert a ring index
back to a face name. -/
def spec_ring_face : Nat → Face
  | 0 => .south
  | 1 => .west
  | 2 => .north
  | 3 => .east
  | _ => .south

/-- Modelled from the spec (claim C1's formula): the reverse-offset
table `[0,3,2,1]` indexed by the block facing's ring index. -/
def spec_reverse_offset : Nat → Nat
  | 0 => 0
  | 1 => 3
  | 2 => 2
  | 3 => 1
  | _ => 0

/-- Modelled from the spec (claim C1): combine the two ring indices as
`(targetIndex + reverseOffset[facingIndex] + 1 + globalRotation +
2*(globalRotation mod 2)) mod 4` and convert back to a face name. -/
def spec_facing_to_real (rotation : Nat) (blockfacing targetblockface : Face) :
    Face :=
  spec_ring_face
    ((spec_ring_index targetblockface +
      spec_reverse_offset (spec_ring_index blockfacing) + 1 + rotation +
      2 * (rotation % 2)) % 4)

lemma orientation_from_numvalue_mod4 (n : Nat) :
    orientation_from_numvalue (n % 4) = some (spec_ring_face (n % 4)) := by
  have h : n % 4 < 4 := Nat.mod_lt n (by decide)
  generalize n % 4 = k at h ⊢
  interval_cases k <;> rfl

example : map_facing_to_real 0 Face.south Face.west = some Face.north := by decide
example : map_facing_to_real 1 Face.east Face.east = some Face.south := by decide

/-- C1. For horizontal block facing and horizontal logical face, the
code's `map_facing_to_real` agrees with the spec's ring-arithmetic
formula `(targetIndex + reverseOffset[facingIndex] + 1 + globalRotation
+ 2*(globalRotation mod 2)) mod 4` under the ordering south=0, west=1,
north=2, east=3, for every global rotation. -/
theorem C1_map_facing_matches_spec_formula (rotation : Nat)
    (f t : Face) (hf : horizontal f = true) (ht : horizontal t = true) :
    map_facing_to_real rotation f t = some (spec_facing_to_real rotation f t) := by
  cases f <;> cases t <;> simp_all [horizontal, map_facing_to_real,
    spec_facing_to_real, numvalue_orientation, spec_ring_index,
    spec_reverse_offset, orientation_from_numvalue_mod4, Nat.mul_comm]

/-- Witness for C1 at rotation 3, facing east, logical face west. -/
theorem C1_map_facing_matches_spec_formula_witness :
    horizontal Face.east = true ∧ horizontal Face.west = true ∧
    map_facing_to_real 3 Face.east Face.west =
      some (spec_facing_to_real 3 Face.east Face.west) :=
  ⟨by decide, by decide,
   C1_map_facing_matches_spec_formula 3 Face.east Face.west (by decide) (by decide)⟩

/-- C8. `map_facing_to_real` is total over all 36 facing/face pairs and
every global rotation: it always returns one of the six valid faces
(never the `none` that embeds a raised `KeyError`/`IndexError`). -/
theorem C8_map_facing_total (rotation : Nat) (f t : Face) :
    (map_facing_to_real rotation f t).isSome = true := by
  cases f <;> cases t <;>
    simp [map_facing_to_real, numvalue_orientation,
      orientation_from_numvalue_mod4]

/-- C9. `map_axis_to_real` with axis `'y'` is the identity on every
face. -/
theorem C9_map_axis_y_identity (f : Face) : map_axis_to_real "y" f = f := by
  cases f <;> rfl

/-! ## Python dictionaries and errors -/

/-- A raised Python exception relevant to the embedded code paths:
`KeyError`, `IndexError`, and the `TextureException` raised by
`find_file` when an asset cannot be located. -/
inductive PyErr where
  | keyError (k : String)
  | indexError
  | textureNotFound (path : String)
deriving DecidableEq, Repr

/-- Python `d[k]` on a dict embedded as an association list (first
binding wins, as Python dicts have unique keys). -/
def dict_lookup {κ β : Type} [DecidableEq κ] (d : List (κ × β)) (k : κ) :
    Option β :=
  match d with
  | [] => none
  | (k', v) :: rest => if k' = k then some v else dict_lookup rest k

/-- Python `d[k] = v`: replace the binding in place when the key is
present (Python preserves insertion order), append otherwise. -/
def dict_set {κ β : Type} [DecidableEq κ] (d : List (κ × β)) (k : κ) (v : β) :
    List (κ × β) :=
  match d with
  | [] => [(k, v)]
  | (k', v') :: rest =>
      if k' = k then (k, v) :: rest else (k', v') :: dict_set rest k v

/-- Python `d.update(other)`: set every binding of `other` in `d`, so a
key present in both ends up with `other`'s value. -/
def dict_update {κ β : Type} [DecidableEq κ] (d other : List (κ × β)) :
    List (κ × β) :=
  other.foldl (fun acc kv => dict_set acc kv.1 kv.2) d

/-- Python `re.sub('.*:', '', s)`: drop everything up to and including
the last colon. -/
def strip_namespace (s : String) : String :=
  String.mk ((s.toList.reverse.takeWhile (fun c => c != ':')).reverse)

/-- Python `s.startswith('#')`. -/
def starts_with_hash (s : String) : Bool := s.toList.head? == some '#'

/-! ## The model data and the model loader -/

/-- One per-face entry of a model element (`elem['faces'][face]`): the
texture reference plus the optional `uv`, `rotation` and
`texturerotation` keys read by the renderer. -/
structure FaceInfo where
  texture : String
  uv : Option (List Int) := none
  rotation : Option Int := none
  texturerotation : Option Int := none
deriving DecidableEq, Repr

/-- One cuboid element of a model.  The optional `from`/`to` corner
triples (`from` is a Lean keyword, hence `efrom`/`eto`) and the faces
dict. -/
structure ModelElement where
  efrom : Option (Int × Int × Int) := none
  eto : Option (Int × Int × Int) := none
  faces : List (Face × FaceInfo) := []
deriving DecidableEq, Repr

/-- A model JSON object as `json.load` returns it: the three keys
`load_model` reads, each possibly absent. -/
structure RawModel where
  parent : Option String := none
  textures : Option (List (String × String)) := none
  elements : Option (List ModelElement) := none
deriving DecidableEq, Repr

/-- The shared class-level cache `Textures.models`. -/
abbrev ModelCache := List (String × RawModel)

/-- The asset collaborator: `find_file` + `json.load` for a full asset
path, `none` when `find_file` raises `TextureException`. -/
abbrev ModelFS := String → Option RawModel

/-- `Textures.find_texture_from_model(face, textureset)`: follow `#name`
references through the textures table; a non-reference is resolved to
the texture path `load_image_texture` is asked for (image decoding is
outside the model loader).  The Python recursion is bounded only by the
interpreter stack; the embedding is fuel-indexed and an outer `none`
means the chain exceeded the given depth. -/
def find_texture_from_model :
    Nat → String → List (String × String) → Option (Except PyErr String)
  | 0, _, _ => none
  | n + 1, face, textureset =>
    if starts_with_hash face then
      match dict_lookup textureset (face.drop 1) with
      | none => some (.error (.keyError (face.drop 1)))
      | some nxt => find_texture_from_model n nxt textureset
    else
      some (.ok ("assets/minecraft/textures/" ++ strip_namespace face ++ ".png"))

/-- The statement chain
`self.models[modelname]['elements'][0]['faces'][f] <- g` used by
`normalize_model`'s fixups: `KeyError` when `elements` or the face is
absent, `IndexError` on an empty element list. -/
def modify_face0 (m : RawModel) (f : Face) (g : FaceInfo → FaceInfo) :
    Except PyErr RawModel :=
  match m.elements with
  | none => .error (.keyError "elements")
  | some [] => .error .indexError
  | some (e0 :: rest) =>
    match dict_lookup e0.faces f with
    | none => .error (.keyError "face")
    | some fi =>
        .ok { m with
              elements := some ({ e0 with faces := dict_set e0.faces f (g fi) } :: rest) }

/-- `Textures.normalize_model(modelname)`: apply the hand-coded fixups
for the five known-inconsistent models (operating on the cached entry,
`deepcopy` being invisible in a functional embedding), store the result
back in the cache and return it; any other name returns the cached
entry unchanged. -/
def normalize_model (modelname : String) (cache : ModelCache) :
    Except PyErr (RawModel × ModelCache) := do
  match dict_lookup cache modelname with
  | none => .error (.keyError modelname)
  | some m =>
    if modelname = "block/observer" then
      let m ← modify_face0 m .up (fun fi => { fi with uv := some [0, 0, 16, 16] })
      return (m, dict_set cache modelname m)
    else if modelname = "block/loom" then
      let m ← modify_face0 m .up (fun fi => { fi with texturerotation := some 180 })
      let m ← modify_face0 m .down (fun fi => { fi with texturerotation := some 180 })
      return (m, dict_set cache modelname m)
    else if modelname = "block/barrel" ∨ modelname = "block/barrel_open" then
      let m ← modify_face0 m .north (fun fi => { fi with texture := "#up" })
      let m ← modify_face0 m .south (fun fi => { fi with texture := "#down" })
      let m ← modify_face0 m .down (fun fi => { fi with texture := "#north" })
      let m ← modify_face0 m .up (fun fi => { fi with texture := "#south" })
      let m ← modify_face0 m .east (fun fi => { fi with texturerotation := some 90 })
      let m ← modify_face0 m .west (fun fi => { fi with texturerotation := some 90 })
      return (m, dict_set cache modelname m)
    else if modelname = "block/dropper_vertical" ∨ modelname = "block/dispenser_vertical" then
      let m ← modify_face0 m .north (fun fi => { fi with texture := "#up" })
      let m ← modify_face0 m .up (fun fi => { fi with texture := "#north" })
      return (m, dict_set cache modelname m)
    else
      return (m, cache)

/-- `Textures.load_model(modelname)`.  Returns the loaded model (or the
raised exception) together with the resulting shared cache; the cache
is threaded through even on error because the Python code mutates
`self.models` before it can fail.  Mirrors the source order: cache hit;
`find_file`/`json.load` (which stores the raw JSON in the cache
*before* resolving inheritance); recursive parent load with namespace
stripped; `child['textures'].update(parent['textures'])` (a `KeyError`
when the child has no textures table); element concatenation
child-then-parent; `del` of the parent key; `normalize_model`.
Fuel-indexed against cyclic parent chains; outer `none` means the
recursion exceeded the fuel. -/
def load_model (fs : ModelFS) :
    Nat → String → ModelCache → Option (Except PyErr RawModel × ModelCache)
  | 0, _, _ => none
  | n + 1, modelname, cache =>
    match dict_lookup cache modelname with
    | some m => some (.ok m, cache)
    | none =>
      let path := "assets/minecraft/models/" ++ modelname ++ ".json"
      match fs path with
      | none => some (.error (.textureNotFound path), cache)
      | some raw =>
        let cache := dict_set cache modelname raw
        match raw.parent with
        | none =>
          match normalize_model modelname cache with
          | .error e => some (.error e, cache)
          | .ok (m, cache) => some (.ok m, dict_set cache modelname m)
        | some p =>
          match load_model fs n (strip_namespace p) cache with
          | none => none
          | some (.error e, cache) => some (.error e, cache)
          | some (.ok parentm, cache) =>
            match dict_lookup cache modelname with
            | none => some (.error (.keyError modelname), cache)
            | some current =>
              let step1 : Except PyErr RawModel :=
                match parentm.textures with
                | none => .ok current
                | some pt =>
                  match current.textures with
                  | none => .error (.keyError "textures")
                  | some ct => .ok { current with textures := some (dict_update ct pt) }
              match step1 with
              | .error e => some (.error e, cache)
              | .ok current =>
                let current : RawModel :=
                  match parentm.elements with
                  | none => current
                  | some pe =>
                    match current.elements with
                    | none => { current with elements := some pe }
                    | some ce => { current with elements := some (ce ++ pe) }
                match current.parent with
                | none => some (.error (.keyError "parent"), dict_set cache modelname current)
                | some _ =>
                  let current := { current with parent := none }
                  let cache := dict_set cache modelname current
                  match normalize_model modelname cache with
                  | .error e => some (.error e, cache)
                  | .ok (m, cache) => some (.ok m, dict_set cache modelname m)

/-! ## Claims about the model loader -/

/-- Element `E1` of a parent model in the inheritance scenario. -/
def e1C : ModelElement :=
  { efrom := some (0, 0, 0), eto := some (16, 16, 16),
    faces := [(Face.up, { texture := "#a" })] }

/-- Element `E2` of a child model in the inheritance scenario. -/
def e2C : ModelElement :=
  { efrom := some (0, 0, 0), eto := some (16, 16, 16),
    faces := [(Face.down, { texture := "#a" })] }

/-- A file system holding child model `c` (with `parent: p`, its own
textures entry `a -> "y"` and element `E2`) and parent model `p` (with
textures entry `a -> "x"` and element `E1`). -/
def fsC2 : ModelFS := fun path =>
  if path = "assets/minecraft/models/c.json" then
    some { parent := some "p", textures := some [("a", "y")], elements := some [e2C] }
  else if path = "assets/minecraft/models/p.json" then
    some { textures := some [("a", "x")], elements := some [e1C] }
  else none

/-- The model `load_model` resolves for `c` under `fsC2`. -/
def mC2 : RawModel :=
  { parent := none, textures := some [("a", "x")], elements := some [e2C, e1C] }

/-- C2. Evaluating `load_model` at a child/parent pair that both define
the textures key `a` (child `a -> "y"`, parent `a -> "x"`): the
resolved table holds the parent's entry `"x"`, not the child's `"y"`,
because `child['textures'].update(parent['textures'])` lets the parent
overwrite the child; the elements list is child-then-parent as
claimed. -/
theorem C2_load_model_parent_overrides_child :
    (load_model fsC2 4 "c" []).map Prod.fst = some (.ok mC2) ∧
    dict_lookup (mC2.textures.getD []) "a" = some "x" ∧
    dict_lookup (mC2.textures.getD []) "a" ≠ some "y" ∧
    mC2.elements = some [e2C, e1C] :=
  ⟨rfl, rfl, by decide, rfl⟩

/-- A file system holding only model `m`, which names a parent `p` that
does not exist. -/
def fsC5 : ModelFS := fun path =>
  if path = "assets/minecraft/models/m.json" then some { parent := some "p" }
  else none

/-- The raw, unresolved JSON of model `m` (its `parent` key intact). -/
def rawM5 : RawModel := { parent := some "p" }

/-- C5. `load_model` stores the raw JSON in the shared cache before
resolving the parent, so when the parent lookup raises, the partial
model stays cached: the first call fails with the parent's
`TextureException`, yet a second call for the same name returns the
still-unresolved model (its `parent` reference intact) as a success. -/
theorem C5_failed_load_is_cached_as_success :
    load_model fsC5 4 "m" [] =
      some (.error (.textureNotFound "assets/minecraft/models/p.json"),
            [("m", rawM5)]) ∧
    load_model fsC5 4 "m" [("m", rawM5)] = some (.ok rawM5, [("m", rawM5)]) ∧
    rawM5.parent = some "p" :=
  ⟨rfl, rfl, rfl⟩

/-- The cyclic reference table `{a: "#b", b: "#a"}`. -/
def cyc_textureset : List (String × String) := [("a", "#b"), ("b", "#a")]

/-- C4. On the cyclic reference chain `a -> "#b"`, `b -> "#a"`, the
recursion of `find_texture_from_model` never reaches a base case: for
every recursion depth the fuel-indexed embedding is still unresolved
(`none`), so the source — which has no depth guard at all — neither
reaches a concrete texture path nor fails with a controlled load error
at any fixed depth. -/
theorem C4_cyclic_chain_never_resolves (n : Nat) :
    find_texture_from_model n "#a" cyc_textureset = none := by
  have key : ∀ m, find_texture_from_model m "#a" cyc_textureset = none ∧
      find_texture_from_model m "#b" cyc_textureset = none := by
    intro m
    induction m with
    | zero => exact ⟨rfl, rfl⟩
    | succ k ih =>
        refine ⟨?_, ?_⟩
        · show find_texture_from_model k "#b" cyc_textureset = none
          exact ih.2
        · show find_texture_from_model k "#a" cyc_textureset = none
          exact ih.1
  exact (key n).1

/-! ## Images, shading and the seam patch -/

/-- An RGBA pixel. -/
structure Pix where
  r : Nat
  g : Nat
  b : Nat
  a : Nat
deriving DecidableEq, Repr

/-- A PIL image embedded as a total pixel function;
`img.getpixel(p)` is application. -/
def Img : Type := Nat × Nat → Pix

/-- `img.putpixel(p, c)`. -/
def putpixel (img : Img) (p : Nat × Nat) (c : Pix) : Img :=
  fun q => if q = p then c else img q

/-- The two touch-up loops closing the shearing gaps, shared by
`build_block` and `build_block_from_model`: copy to each of
`(13,23), (17,21), (21,19)` from its left neighbour `(x-1, y)`, then to
each of `(3,4), (7,2), (11,0)` from its right neighbour `(x+1, y)`, in
source order. -/
def seam_patch (img : Img) : Img :=
  let i1 := putpixel img (13, 23) (img (12, 23))
  let i2 := putpixel i1 (17, 21) (i1 (16, 21))
  let i3 := putpixel i2 (21, 19) (i2 (20, 19))
  let i4 := putpixel i3 (3, 4) (i3 (4, 4))
  let i5 := putpixel i4 (7, 2) (i4 (8, 2))
  putpixel i5 (11, 0) (i5 (12, 0))

/-- C6. On any canvas, the seam patch overwrites exactly the six stated
pixels: `(13,23), (17,21), (21,19)` take the value of their left
neighbour and `(3,4), (7,2), (11,0)` the value of their right neighbour
(as of the original canvas — no patched pixel feeds another), and every
other pixel is unchanged. -/
theorem C6_seam_patch_exact (img : Img) :
    seam_patch img (13, 23) = img (12, 23) ∧
    seam_patch img (17, 21) = img (16, 21) ∧
    seam_patch img (21, 19) = img (20, 19) ∧
    seam_patch img (3, 4) = img (4, 4) ∧
    seam_patch img (7, 2) = img (8, 2) ∧
    seam_patch img (11, 0) = img (12, 0) ∧
    ∀ p : Nat × Nat, p ≠ (13, 23) → p ≠ (17, 21) → p ≠ (21, 19) →
      p ≠ (3, 4) → p ≠ (7, 2) → p ≠ (11, 0) → seam_patch img p = img p := by
  refine ⟨rfl, rfl, rfl, rfl, rfl, rfl, ?_⟩
  intro p h1 h2 h3 h4 h5 h6
  simp [seam_patch, putpixel, h1, h2, h3, h4, h5, h6]

/-- Witness for C6 on a concrete canvas and the untouched pixel (0,0). -/
theorem C6_seam_patch_exact_witness :
    seam_patch (fun p => ⟨p.1, p.2, 0, 255⟩) (0, 0) =
      (fun p : Nat × Nat => (⟨p.1, p.2, 0, 255⟩ : Pix)) (0, 0) :=
  (C6_seam_patch_exact _).2.2.2.2.2.2 (0, 0)
    (by decide) (by decide) (by decide) (by decide) (by decide) (by decide)

/-- `texture.split()[3]`: the alpha band. -/
def split_alpha (texture : Img) : Nat × Nat → Nat := fun p => (texture p).a

/-- `ImageEnhance.Brightness(texture).enhance(num/den)`: PIL blends the
image toward black, scaling every channel — the alpha channel included
(the source comments on this) — by the factor; embedded as exact
rational scaling with truncation. -/
def brightness_enhance (num den : Nat) (texture : Img) : Img :=
  fun p =>
    { r := (texture p).r * num / den, g := (texture p).g * num / den,
      b := (texture p).b * num / den, a := (texture p).a * num / den }

/-- `texture.putalpha(alpha)`: replace the alpha band. -/
def putalpha (texture : Img) (alpha : Nat × Nat → Nat) : Img :=
  fun p => { texture p with a := alpha p }

/-- `Textures.adjust_lighting(direction, texture)`: save the alpha
band, darken (0.8 for south/west, 0.9 for north/east), restore the
alpha band; up/down (and the catch-all) return the texture
unchanged. -/
def adjust_lighting (direction : Face) (texture : Img) : Img :=
  match direction with
  | .south | .west =>
      putalpha (brightness_enhance 8 10 texture) (split_alpha texture)
  | .north | .east =>
      putalpha (brightness_enhance 9 10 texture) (split_alpha texture)
  | .down | .up => texture

/-- C7. `adjust_lighting` scales RGB to 80% for south/west faces and to
90% for north/east faces, returns up/down textures unchanged, and in
every case the alpha channel of the result is pixel-for-pixel the alpha
channel of the input. -/
theorem C7_adjust_lighting_shading (texture : Img) (p : Nat × Nat) :
    (adjust_lighting .south texture p =
      { r := (texture p).r * 8 / 10, g := (texture p).g * 8 / 10,
        b := (texture p).b * 8 / 10, a := (texture p).a }) ∧
    (adjust_lighting .west texture p =
      { r := (texture p).r * 8 / 10, g := (texture p).g * 8 / 10,
        b := (texture p).b * 8 / 10, a := (texture p).a }) ∧
    (adjust_lighting .north texture p =
      { r := (texture p).r * 9 / 10, g := (texture p).g * 9 / 10,
        b := (texture p).b * 9 / 10, a := (texture p).a }) ∧
    (adjust_lighting .east texture p =
      { r := (texture p).r * 9 / 10, g := (texture p).g * 9 / 10,
        b := (texture p).b * 9 / 10, a := (texture p).a }) ∧
    adjust_lighting .up texture p = texture p ∧
    adjust_lighting .down texture p = texture p ∧
    (∀ d : Face, (adjust_lighting d texture p).a = (texture p).a) := by
  refine ⟨rfl, rfl, rfl, rfl, rfl, rfl, ?_⟩
  intro d
  cases d <;> rfl

/-! ## Element assembly control flow

`build_block_from_model` composites faces onto a 24x24 canvas; for the
assembly claims the canvas is abstracted to the trace of successfully
drawn faces, one list per (sorted) element, while the fallible
operations — every Python dictionary/list access on the model data —
are embedded exactly.  The pixel-level parts of the pipeline
(`crop_to_transparancy`, `transform_texture`, `adjust_lighting`,
`alpha_over`, the seam patch) cannot raise `KeyError` and are modelled
above on the pixel-function image type. -/

/-- The block placement state passed to `build_block_from_model`: the
optional `facing` and `axis` keys. -/
structure Blockstate where
  facing : Option Face := none
  axis : Option String := none
deriving DecidableEq, Repr

/-- `Textures.setback(element, facing)`: the per-face inset table.
Python builds the whole dict before indexing, so `element['from']` and
`element['to']` are read (and can raise `KeyError`) whatever the
facing. -/
def setback (element : ModelElement) (facing : Face) : Except PyErr Int :=
  match element.efrom with
  | none => .error (.keyError "from")
  | some (fx, _, fz) =>
    match element.eto with
    | none => .error (.keyError "to")
    | some (tx, _, tz) =>
        .ok (match facing with
             | .up => 16
             | .down => 0
             | .north => fz
             | .south => 16 - tz
             | .east => 16 - tx
             | .west => fx)

/-- `int(math.ceil(num/den))` for exact dyadic fractions (the source
only forms fractions with denominator 16, which are float-exact). -/
def py_ceil_frac (num den : Int) : Int := (num + den - 1).ediv den

/-- `Textures.image_pos(elementdirection, element, facing, modelname)`:
the canvas offset for a face image. -/
def image_pos (elementdirection : Face) (element : ModelElement) (facing : Face) :
    Except PyErr (Int × Int) :=
  match elementdirection with
  | .east => .ok (0, 0)
  | .south => .ok (12, 0)
  | .west =>
    match setback element facing with
    | .error e => .error e
    | .ok s =>
        .ok (py_ceil_frac (12 * (16 - s)) 16, py_ceil_frac (6 * (16 - s)) 16)
  | .north =>
    match setback element facing with
    | .error e => .error e
    | .ok s => .ok (py_ceil_frac (12 * s) 16, py_ceil_frac (96 - 6 * s) 16)
  | .down =>
    match element.efrom with
    | some (_, fy, _) => .ok (0, py_ceil_frac ((16 - fy) * 12) 16)
    | none => .ok (0, 12)
  | .up =>
    match element.eto with
    | some (_, ty, _) => .ok (0, py_ceil_frac ((16 - ty) * 12) 16)
    | none => .ok (0, 0)

/-- `Textures.axis_rotation(axis, face, texture)`: the whole-texture
rotation angle per axis and face (the catch-all `'y' | _` branch leaves
the texture unrotated). -/
def axis_rotation_degrees (axis : String) (face : Face) : Nat :=
  if axis = "x" then
    match face with
    | .up => 270 | .north => 0 | .down => 0
    | .south => 0 | .east => 270 | .west => 270
  else if axis = "z" then
    match face with
    | .up => 0 | .west => 0 | .down => 0
    | .east => 0 | .north => 90 | .south => 90
  else 0

/-- `Textures.texture_rotation(direction, texture, blockstate,
faceinfo, modelname)`: the accumulated rotation angle finally reduced
`% 360` (Python and `Int.emod` agree on nonnegative moduli).  The
remap-table lookups on `faceinfo['rotation']` raise `KeyError` for a
value outside `{0, 90, 180, 270}`. -/
def texture_rotation_degrees (self_rotation : Nat) (direction : Face)
    (blockstate : Blockstate) (faceinfo : FaceInfo) : Except PyErr Int :=
  let r0 : Int := match faceinfo.texturerotation with
                  | some tr => 0 + tr
                  | none => 0
  let rE : Except PyErr Int :=
    match direction with
    | .down | .up =>
      match blockstate.facing with
      | none => .ok r0
      | some bf =>
        if numvalue_orientation bf < 4 then
          match [0, 270, 180, 90].get? ((numvalue_orientation bf + self_rotation) % 4) with
          | none => .error .indexError
          | some add => .ok (r0 + add)
        else
          match bf with
          | .up => .ok (r0 + 180)
          | .down => .ok (r0 + 0)
          | _ => .error (.keyError "facing")
    | .north | .south =>
      let r1 : Except PyErr Int :=
        match faceinfo.rotation with
        | none => .ok r0
        | some rv =>
          if rv = 0 then .ok 180 else if rv = 90 then .ok 90
          else if rv = 180 then .ok 0 else if rv = 270 then .ok 270
          else .error (.keyError "rotation")
      match r1 with
      | .error e => .error e
      | .ok r1 =>
        match blockstate.facing with
        | some .up => .ok (r1 + 90)
        | some .down => .ok (r1 + 90)
        | _ => .ok r1
    | .west | .east =>
      let r1 : Except PyErr Int :=
        match faceinfo.rotation with
        | none => .ok r0
        | some rv =>
          if rv = 0 then .ok 180 else if rv = 90 then .ok 270
          else if rv = 180 then .ok 0 else if rv = 270 then .ok 90
          else .error (.keyError "rotation")
      match r1 with
      | .error e => .error e
      | .ok r1 =>
        match blockstate.facing with
        | some .up => .ok (r1 + 180)
        | some .down => .ok (r1 + 0)
        | _ => .ok r1
  match rE with
  | .error e => .error e
  | .ok r => .ok (r.emod 360)

/-- `Textures.build_texture(direction, elem, data, blockstate,
modelname, textureface)`, abstracted to its fallible accesses: the
faces-dict lookup, the textures table, the `#`-reference resolution and
the rotation computation; on success the resolved texture path stands
for the built face image.  Outer `none`: `find_texture_from_model` ran
out of fuel. -/
def build_texture_checked (self_rotation fuel : Nat) (direction : Face)
    (elem : ModelElement) (data : RawModel) (blockstate : Blockstate)
    (textureface : Face) : Option (Except PyErr String) :=
  match dict_lookup elem.faces textureface with
  | none => some (.error (.keyError "face"))
  | some faceinfo =>
    match data.textures with
    | none => some (.error (.keyError "textures"))
    | some textureset =>
      match find_texture_from_model fuel faceinfo.texture textureset with
      | none => none
      | some (.error e) => some (.error e)
      | some (.ok path) =>
        let _axisdeg : Nat :=
          match blockstate.axis with
          | some ax => axis_rotation_degrees ax direction
          | none => 0
        match texture_rotation_degrees self_rotation direction blockstate faceinfo with
        | .error e => some (.error e)
        | .ok _ => some (.ok path)

/-- `Textures.draw_blockface(img, elem, colmodel, blockstate,
modelname, direction)`: map the logical face through the orientation
mapper, build the texture, compute the canvas position, composite.  A
`none` result from `map_facing_to_real` embeds the `KeyError` of
`orientation_from_numvalue`. -/
def draw_blockface_checked (self_rotation fuel : Nat) (elem : ModelElement)
    (colmodel : RawModel) (blockstate : Blockstate) (direction : Face) :
    Option (Except PyErr String) :=
  let facingE : Except PyErr Face :=
    match blockstate.facing with
    | some bf =>
      match map_facing_to_real self_rotation bf direction with
      | some f => .ok f
      | none => .error (.keyError "orientation")
    | none =>
      match blockstate.axis with
      | some ax => .ok (map_axis_to_real ax direction)
      | none => .ok direction
  match facingE with
  | .error e => some (.error e)
  | .ok facing =>
    match build_texture_checked self_rotation fuel direction elem colmodel blockstate facing with
    | none => none
    | some (.error e) => some (.error e)
    | some (.ok path) =>
      match image_pos direction elem facing with
      | .error e => some (.error e)
      | .ok _pos => some (.ok path)

/-- The face draw order of one element in `build_block_from_model`:
west-or-east (west preferred), then north-or-south (north preferred),
then up-or-down (up preferred); absent faces are not attempted. -/
def element_face_attempts (elem : ModelElement) : List Face :=
  (if (dict_lookup elem.faces .west).isSome then [Face.west]
   else if (dict_lookup elem.faces .east).isSome then [Face.east] else []) ++
  (if (dict_lookup elem.faces .north).isSome then [Face.north]
   else if (dict_lookup elem.faces .south).isSome then [Face.south] else []) ++
  (if (dict_lookup elem.faces .up).isSome then [Face.up]
   else if (dict_lookup elem.faces .down).isSome then [Face.down] else [])

/-- The `try`-block of `build_block_from_model`'s element loop: draw
the element's faces in order; `except KeyError: continue` abandons the
remaining faces of this element (keeping what was already drawn); any
other exception propagates. -/
def draw_faces (self_rotation fuel : Nat) (colmodel : RawModel)
    (blockstate : Blockstate) (elem : ModelElement) :
    List Face → Option (Except PyErr (List Face))
  | [] => some (.ok [])
  | f :: rest =>
    match draw_blockface_checked self_rotation fuel elem colmodel blockstate f with
    | none => none
    | some (.error (.keyError _)) => some (.ok [])
    | some (.error e) => some (.error e)
    | some (.ok _) =>
      match draw_faces self_rotation fuel colmodel blockstate elem rest with
      | none => none
      | some (.error e) => some (.error e)
      | some (.ok fs) => some (.ok (f :: fs))

/-- The element loop of `build_block_from_model`: one trace entry per
element. -/
def render_elements (self_rotation fuel : Nat) (colmodel : RawModel)
    (blockstate : Blockstate) :
    List ModelElement → Option (Except PyErr (List (List Face)))
  | [] => some (.ok [])
  | e :: rest =>
    match draw_faces self_rotation fuel colmodel blockstate e
        (element_face_attempts e) with
    | none => none
    | some (.error err) => some (.error err)
    | some (.ok drawn) =>
      match render_elements self_rotation fuel colmodel blockstate rest with
      | none => none
      | some (.error err) => some (.error err)
      | some (.ok ls) => some (.ok (drawn :: ls))

/-- The sort key `(x['to'][1], 16 - (x['from'][0]+x['to'][0]),
16 - (x['from'][2]+x['to'][2]))`; Python reads `to` first, then
`from`. -/
def sort_key (e : ModelElement) : Except PyErr (Int × Int × Int) :=
  match e.eto with
  | none => .error (.keyError "to")
  | some (tx, ty, tz) =>
    match e.efrom with
    | none => .error (.keyError "from")
    | some (fx, _, fz) => .ok (ty, 16 - (fx + tx), 16 - (fz + tz))

/-- Keys are computed for every element (in list order) before
sorting. -/
def sort_keys : List ModelElement →
    Except PyErr (List ((Int × Int × Int) × ModelElement))
  | [] => .ok []
  | e :: rest =>
    match sort_key e with
    | .error err => .error err
    | .ok k =>
      match sort_keys rest with
      | .error err => .error err
      | .ok ks => .ok ((k, e) :: ks)

/-- Strict lexicographic comparison of sort keys. -/
def key_lt (a b : Int × Int × Int) : Bool :=
  a.1 < b.1 ∨ (a.1 = b.1 ∧
    (a.2.1 < b.2.1 ∨ (a.2.1 = b.2.1 ∧ a.2.2 < b.2.2)))

/-- Stable insertion: skip the strictly smaller keys, insert before
the first element that is not strictly smaller (so equal keys keep
their original relative order). -/
def stable_insert {α : Type} (lt : α → α → Bool) (x : α) : List α → List α
  | [] => [x]
  | y :: ys => if lt y x then y :: stable_insert lt x ys else x :: y :: ys

/-- A stable insertion sort.  Stable sorts with respect to a total
preorder are extensionally unique, so this computes the same list as
Python's Timsort in `elements.sort(key=...)`. -/
def stable_sort {α : Type} (lt : α → α → Bool) : List α → List α
  | [] => []
  | x :: xs => stable_insert lt x (stable_sort lt xs)

/-- `elements.sort(key=...)`: Python's stable sort over the
precomputed keys. -/
def sorted_elements (es : List ModelElement) :
    Except PyErr (List ModelElement) :=
  match sort_keys es with
  | .error err => .error err
  | .ok ks =>
      .ok ((stable_sort (fun a b => key_lt a.1 b.1) ks).map Prod.snd)

/-- `Textures.build_block_from_model(modelname, blockstate)`: prefix
the name with `block/`, load the model, return `None` when the
resolved model has no elements, else sort the elements and draw each
element's faces; the canvas is abstracted to the per-element trace of
successfully drawn faces (the final canvas being the seam-patched
composite of those faces). -/
def build_block_from_model (fs : ModelFS) (self_rotation fuel : Nat)
    (blockstate : Blockstate) (modelname : String) (cache : ModelCache) :
    Option (Except PyErr (Option (List (List Face))) × ModelCache) :=
  let modelname := "block/" ++ modelname
  match load_model fs fuel modelname cache with
  | none => none
  | some (.error e, cache) => some (.error e, cache)
  | some (.ok colmodel, cache) =>
    match colmodel.elements with
    | none => some (.ok none, cache)
    | some elements =>
      match sorted_elements elements with
      | .error e => some (.error e, cache)
      | .ok elements =>
        match render_elements self_rotation fuel colmodel blockstate elements with
        | none => none
        | some (.error e) => some (.error e, cache)
        | some (.ok trace) => some (.ok (some trace), cache)

/-! ## Claims about element assembly -/

/-- An element whose west face references the undefined texture name
`#missing` while its up face references the defined `#ok`. -/
def elemC3 : ModelElement :=
  { efrom := some (0, 0, 0), eto := some (16, 16, 16),
    faces := [(Face.west, { texture := "#missing" }),
              (Face.up, { texture := "#ok" })] }

/-- The model holding `elemC3`, whose textures table defines only
`ok`. -/
def modelC3 : RawModel :=
  { textures := some [("ok", "blocks/x")], elements := some [elemC3] }

/-- A file system holding `modelC3` as `block/m3`. -/
def fsC3 : ModelFS := fun path =>
  if path = "assets/minecraft/models/block/m3.json" then some modelC3 else none

/-- C3, counterexample.  For `block/m3` the west face fails with a
missing-key error while assembling, and the element's trace is `[]`:
the up face of the same element is *not* rendered, although drawing it
by itself succeeds — refuting "only that face is omitted: the remaining
faces of the same element are still rendered". -/
theorem C3_counterexample_element_abandoned :
    build_block_from_model fsC3 0 8 {} "m3" [] =
      some (.ok (some [[]]), [("block/m3", modelC3)]) ∧
    draw_blockface_checked 0 8 elemC3 modelC3 {} Face.up =
      some (.ok "assets/minecraft/textures/blocks/x.png") :=
  ⟨rfl, rfl⟩

/-- C3, amended.  When the first attempted face of an element fails
with a `KeyError`, the element's remaining faces are all skipped (the
element contributes an empty trace whatever those faces are), and
rendering continues with the remaining elements unchanged. -/
theorem C3_keyerror_skips_rest_of_element (self_rotation fuel : Nat)
    (colmodel : RawModel) (blockstate : Blockstate) (e : ModelElement)
    (es : List ModelElement) (f : Face) (rest : List Face) (k : String)
    (hattempts : element_face_attempts e = f :: rest)
    (hfail : draw_blockface_checked self_rotation fuel e colmodel blockstate f =
      some (.error (.keyError k))) :
    draw_faces self_rotation fuel colmodel blockstate e (f :: rest) =
      some (.ok []) ∧
    render_elements self_rotation fuel colmodel blockstate (e :: es) =
      (render_elements self_rotation fuel colmodel blockstate es).map
        (Except.map (fun ls => [] :: ls)) := by
  have hdf : draw_faces self_rotation fuel colmodel blockstate e (f :: rest) =
      some (.ok []) := by
    unfold draw_faces
    rw [hfail]
  refine ⟨hdf, ?_⟩
  simp only [render_elements, hattempts, hdf]
  cases hres : render_elements self_rotation fuel colmodel blockstate es with
  | none => rfl
  | some r => cases r <;> rfl

/-- Witness for the amended C3 on the concrete `block/m3` model. -/
theorem C3_keyerror_skips_rest_of_element_witness :
    draw_faces 0 8 modelC3 {} elemC3 [Face.west, Face.up] = some (.ok []) ∧
    render_elements 0 8 modelC3 {} [elemC3] =
      (render_elements 0 8 modelC3 {} []).map
        (Except.map (fun ls => [] :: ls)) :=
  C3_keyerror_skips_rest_of_element 0 8 modelC3 {} elemC3 [] Face.west
    [Face.up] "missing" rfl rfl

/-- A file system holding an elementless model as `block/empty`. -/
def fsC10 : ModelFS := fun path =>
  if path = "assets/minecraft/models/block/empty.json" then
    some { textures := some [("particle", "blocks/y")] }
  else none

/-- The resolved form of `block/empty` under `fsC10`. -/
def mC10 : RawModel := { textures := some [("particle", "blocks/y")] }

/-- C10. Whenever the resolved model has no elements list,
`build_block_from_model` returns `None` (no canvas, no exception): the
caller receives `.ok none`. -/
theorem C10_no_elements_returns_none (fs : ModelFS) (self_rotation fuel : Nat)
    (blockstate : Blockstate) (modelname : String) (cache c : ModelCache)
    (m : RawModel)
    (h1 : load_model fs fuel ("block/" ++ modelname) cache = some (.ok m, c))
    (h2 : m.elements = none) :
    build_block_from_model fs self_rotation fuel blockstate modelname cache =
      some (.ok none, c) := by
  simp only [build_block_from_model, h1, h2]

/-- Witness for C10 on the concrete elementless model `block/empty`. -/
theorem C10_no_elements_returns_none_witness :
    build_block_from_model fsC10 0 4 {} "empty" [] =
      some (.ok none, [("block/empty", mC10)]) :=
  C10_no_elements_returns_none fsC10 0 4 {} "empty" []
    [("block/empty", mC10)] mC10 rfl rfl
